/-
Verification of the MindFlow wellness-tracking backend (src/main.py, src/schemas.py)
against its natural-language specification.

The embedding models the FastAPI handlers as pure functions over an explicit
document-store state.  The document-store gateway (`database.py`: `find_one`,
`insert_one` / `create_document`, `find_many` / `get_documents`) is not part of
the sources; it is modelled from the spec's §6 contract: collections are
sequences of records in insertion order, `find_many` filters and optionally
caps at a limit, the store assigns an opaque native identifier per record,
and (spec §4.3 step 1) inserted cycle entries carry a store-insertion
timestamp `created_at`.
-/
import Mathlib

namespace MindFlow

/-- A document identifier: either the store's native identifier (modelling a
MongoDB ObjectId, here an opaque natural number) or its string rendering
(what `str(x["_id"])` produces). -/
inductive DocId where
  | oid (n : Nat)
  | str (s : String)
deriving DecidableEq, Repr

/-- `str(_id)` in Python: renders a native identifier as a string. -/
def idStr : DocId → String
  | .oid n => toString n
  | .str s => s

/-- A stored profile document, as written by `email_login` and updated by
`profile_setup`.  `age` is `Int` because `ProfileUpdate.age` is an
unconstrained `Optional[int]` written straight through `$set`. -/
structure ProfileDoc where
  docId : DocId
  email : String
  name : String
  gender : String
  age : Int
  language : String
  period_tracking_enabled : Bool
  plan : String
  referrals : Nat
  created_at : Nat
  updated_at : Nat
deriving DecidableEq, Repr

/-- A stored mood entry document (schema `MoodEntry` plus the store id). -/
structure MoodDoc where
  docId : DocId
  user_id : String
  mood : String
  note : Option String
  created_at : Nat
deriving DecidableEq, Repr

/-- A stored habit document (schema `Habit` plus the store id);
`last_completed_at` is never written by any handler and is omitted. -/
structure HabitDoc where
  docId : DocId
  user_id : String
  title : String
  frequency : String
  active : Bool
  streak : Nat
deriving DecidableEq, Repr

/-- A stored reminder document (schema `Reminder` plus the store id). -/
structure ReminderDoc where
  docId : DocId
  user_id : String
  title : String
  remind_at_iso : String
  enabled : Bool
deriving DecidableEq, Repr

/-- A stored cycle entry document (schema `CycleEntry` plus the store id and
the store-insertion timestamp `created_at` per spec §4.3 step 1). -/
structure CycleDoc where
  docId : DocId
  user_id : String
  date_iso : String
  entry_type : String
  cycle_length_days : Option Int
  created_at : Nat
deriving DecidableEq, Repr

/-- The document store: one list per collection in insertion order, a counter
for store-assigned identifiers and a counter serving as the insertion
clock (`now_utc()` stamps / `created_at` / `updated_at`). -/
structure Store where
  profiles : List ProfileDoc
  moods : List MoodDoc
  habits : List HabitDoc
  reminders : List ReminderDoc
  cycles : List CycleDoc
  nextId : Nat
  clock : Nat
deriving DecidableEq, Repr

/-- `find_one("profile", {"email": email})`: first matching document in
insertion order. -/
def find_one_profile (st : Store) (email : String) : Option ProfileDoc :=
  st.profiles.find? (fun p => p.email == email)

/-- `get_documents(collection, filter, limit)` modelled from the spec's §6
`find_many` contract: all matching records in insertion order, optionally
capped at `limit`. -/
def get_documents (docs : List α) (pred : α → Bool) (limit : Option Nat) : List α :=
  match limit with
  | none => docs.filter pred
  | some n => (docs.filter pred).take n

/-- Python's `x or default` on an optional integer: `None` and `0` are falsy. -/
def pyOrInt (o : Option Int) (d : Int) : Int :=
  match o with
  | none => d
  | some v => if v = 0 then d else v

/-- Python's `x or default` on an optional string: `None` and `""` are falsy. -/
def pyOrStr (o : Option String) (d : String) : String :=
  match o with
  | none => d
  | some s => if s = "" then d else s

/-! ### Date parsing (`datetime.fromisoformat`) -/

/-- Numeric value of a decimal digit character. -/
def dval (c : Char) : Nat := c.toNat - 48

/-- Two-digit decimal number. -/
def d2 (a b : Char) : Nat := dval a * 10 + dval b

/-- Four-digit decimal number. -/
def d4 (a b c d : Char) : Nat := ((dval a * 10 + dval b) * 10 + dval c) * 10 + dval d

/-- Gregorian leap year. -/
def isLeapYear (y : Nat) : Bool := y % 4 == 0 && (y % 100 != 0 || y % 400 == 0)

/-- Days in a month of a given year. -/
def daysInMonth (y m : Nat) : Nat :=
  if m == 2 then (if isLeapYear y then 29 else 28)
  else if m == 4 || m == 6 || m == 9 || m == 11 then 30
  else 31

/-- Days since the Unix epoch of a civil date (Hinnant's `days_from_civil`). -/
def daysFromCivil (y m d : Nat) : Int :=
  let yy : Int := if m ≤ 2 then (y : Int) - 1 else (y : Int)
  let era : Int := yy.fdiv 400
  let yoe : Int := yy - era * 400
  let mp : Int := if m > 2 then (m : Int) - 3 else (m : Int) + 9
  let doy : Int := (153 * mp + 2).fdiv 5 + (d : Int) - 1
  let doe : Int := yoe * 365 + yoe.fdiv 4 - yoe.fdiv 100 + doy
  era * 146097 + doe - 719468

/-- A naive datetime as seconds since the Unix epoch. -/
def toTimestamp (y m d h mi s : Nat) : Int :=
  daysFromCivil y m d * 86400 + ((h * 3600 + mi * 60 + s : Nat) : Int)

/-- `datetime.fromisoformat`, modelled for the canonical forms the system
uses: a bare ISO date `YYYY-MM-DD` or a full ISO datetime
`YYYY-MM-DDTHH:MM:SS`, with calendar validation (month range, day range
with leap years, time-of-day ranges, year at least 1).  Any other string
fails. -/
def fromisoformat (s : String) : Option Int :=
  match s.data with
  | [y1, y2, y3, y4, '-', m1, m2, '-', t1, t2] =>
    if (y1.isDigit && y2.isDigit && y3.isDigit && y4.isDigit &&
        m1.isDigit && m2.isDigit && t1.isDigit && t2.isDigit) then
      let y := d4 y1 y2 y3 y4
      let m := d2 m1 m2
      let d := d2 t1 t2
      if 1 ≤ y ∧ 1 ≤ m ∧ m ≤ 12 ∧ 1 ≤ d ∧ d ≤ daysInMonth y m then
        some (toTimestamp y m d 0 0 0)
      else none
    else none
  | [y1, y2, y3, y4, '-', m1, m2, '-', t1, t2, 'T', h1, h2, ':', i1, i2, ':', s1, s2] =>
    if (y1.isDigit && y2.isDigit && y3.isDigit && y4.isDigit &&
        m1.isDigit && m2.isDigit && t1.isDigit && t2.isDigit &&
        h1.isDigit && h2.isDigit && i1.isDigit && i2.isDigit &&
        s1.isDigit && s2.isDigit) then
      let y := d4 y1 y2 y3 y4
      let m := d2 m1 m2
      let d := d2 t1 t2
      let h := d2 h1 h2
      let mi := d2 i1 i2
      let sec := d2 s1 s2
      if 1 ≤ y ∧ 1 ≤ m ∧ m ≤ 12 ∧ 1 ≤ d ∧ d ≤ daysInMonth y m ∧
          h ≤ 23 ∧ mi ≤ 59 ∧ sec ≤ 59 then
        some (toTimestamp y m d h mi sec)
      else none
    else none
  | _ => none

/-- The `try/except` parse in `cycle_recs`: try `fromisoformat` on the string,
and on failure retry with `"T00:00:00"` appended. -/
def parseStart (s : String) : Option Int :=
  match fromisoformat s with
  | some t => some t
  | none => fromisoformat (s ++ "T00:00:00")

/-! ### Cycle recommendations -/

/-- The fixed phase table of `cycle_recs`: phase, workout, food by day offset. -/
def phaseFor (days : Int) : String × String × String :=
  if days ≤ 5 then
    ("menstrual", "Gentle yoga, restorative movement", "Iron-rich foods, warm soups, hydration")
  else if days ≤ 13 then
    ("follicular", "Build intensity: strength and cardio", "Lean protein, fresh veggies, complex carbs")
  else if days ≤ 16 then
    ("ovulation", "High-intensity or power sessions if comfortable", "Anti-inflammatory foods, hydration")
  else
    ("luteal", "Moderate intensity, prioritize recovery", "Magnesium-rich foods, balanced meals")

/-- Outcome of `GET /api/cycle/recommendations`.  `.enabled` covers both the
computed recommendation and the no-entries fallback (whose dict also has
`enabled: True`); `.disabled` is the `{"enabled": False, ...}` dict;
`.parseError` is the unhandled exception from date parsing. -/
inductive RecsOutcome where
  | notFound
  | disabled
  | enabled (phase workout food : String)
  | parseError
deriving DecidableEq, Repr

/-- The comparison `key=lambda e: e.get("created_at", ...)` of `cycle_recs`. -/
def leCreated (a b : CycleDoc) : Bool := a.created_at ≤ b.created_at

/-- `sorted(entries, key=lambda e: e["created_at"])[-1]`: last element of the
stable sort by `created_at`. -/
def selectLast (entries : List CycleDoc) : Option CycleDoc :=
  (entries.mergeSort leCreated).getLast?

/-- The computation of `cycle_recs` from the selected last entry: parse the
date, default the cycle length with Python `or 28`, take the floor day
difference mod cycle length, and classify. -/
def recsFrom (last : CycleDoc) (now : Int) : RecsOutcome :=
  let cycle_len := pyOrInt last.cycle_length_days 28
  match parseStart last.date_iso with
  | none => .parseError
  | some start =>
    let days := ((now - start).fdiv 86400).fmod cycle_len
    let t := phaseFor days
    .enabled t.1 t.2.1 t.2.2

/-- `GET /api/cycle/recommendations` (`cycle_recs` in src/main.py).  `now` is
`datetime.utcnow()` as seconds since the epoch. -/
def cycle_recs (st : Store) (now : Int) (email : String) : RecsOutcome :=
  match find_one_profile st email with
  | none => .notFound
  | some u =>
    if !u.period_tracking_enabled then .disabled
    else
      let entries := get_documents st.cycles
        (fun e => e.user_id == idStr u.docId && e.entry_type == "period_start") none
      match selectLast entries with
      | none => .enabled "unknown" "Light walks and stretching" "Balanced meals, hydration"
      | some last => recsFrom last now

/-! ### Auth: email login -/

/-- The response of `POST /api/auth/email-login`. -/
structure AuthResponse where
  user_id : String
  email : String
  period_tracking_enabled : Bool
  language : String
deriving DecidableEq, Repr

/-- The `AuthResponse(...)` constructed by `email_login` from a stored
profile document. -/
def authResponseOf (p : ProfileDoc) : AuthResponse :=
  { user_id := idStr p.docId, email := p.email,
    period_tracking_enabled := p.period_tracking_enabled, language := p.language }

/-- The `default = Profile(...)` document built by `email_login` for a new
email, as inserted (with the store-assigned id and the `created_at` /
`updated_at` stamps). -/
def defaultProfile (email : String) (nextId clock : Nat) : ProfileDoc :=
  { docId := .oid nextId,
    email := email,
    name := (email.splitOn "@").headD "",
    gender := "male",
    age := 18,
    language := "en",
    period_tracking_enabled := false,
    plan := "free",
    referrals := 0,
    created_at := clock,
    updated_at := clock }

/-- `email_login` (src/main.py): create-or-return a user profile by email.
On the create path the handler re-reads the profile by email after the
insert; in this sequential model that read always finds the inserted
document, so the impossible-miss branch (where Python would raise on
`None.get`) returns a dummy response. -/
def email_login (st : Store) (email : String) : AuthResponse × Store :=
  match find_one_profile st email with
  | some existing => (authResponseOf existing, st)
  | none =>
    let doc := defaultProfile email st.nextId st.clock
    let st' := { st with profiles := st.profiles ++ [doc],
                         nextId := st.nextId + 1, clock := st.clock + 1 }
    match find_one_profile st' email with
    | some created => (authResponseOf created, st')
    | none =>
      ({ user_id := "", email := email,
         period_tracking_enabled := false, language := "en" }, st')

/-! ### Profile setup -/

/-- The partial-update request body of `POST /api/profile/setup`. -/
structure ProfileUpdate where
  name : Option String
  gender : Option String
  age : Option Int
  language : Option String
deriving DecidableEq, Repr

/-- The response of `POST /api/profile/setup`. -/
structure ProfileResponse where
  email : String
  name : String
  gender : String
  age : Int
  language : String
  period_tracking_enabled : Bool
  plan : String
deriving DecidableEq, Repr

/-- Outcome of `POST /api/profile/setup`. -/
inductive SetupResult where
  | notFound
  | ok (resp : ProfileResponse)
deriving DecidableEq, Repr

/-- `ProfileResponse` as built from a stored document. -/
def responseOf (p : ProfileDoc) : ProfileResponse :=
  { email := p.email, name := p.name, gender := p.gender, age := p.age,
    language := p.language, period_tracking_enabled := p.period_tracking_enabled,
    plan := p.plan }

/-- Whether the `updates` dict of `profile_setup` is non-empty. -/
def hasUpdates (body : ProfileUpdate) : Bool :=
  body.name.isSome || body.gender.isSome || body.age.isSome || body.language.isSome

/-- `$set` of the `updates` dict built by `profile_setup` onto the existing
document: each supplied field overwrites, `period_tracking_enabled` is
recomputed only when `age` is supplied, using `body.gender or
existing["gender"]` as the effective gender, and `updated_at` is stamped. -/
def applyUpdates (body : ProfileUpdate) (clock : Nat) (p : ProfileDoc) : ProfileDoc :=
  { p with
    name := body.name.getD p.name,
    gender := body.gender.getD p.gender,
    age := body.age.getD p.age,
    language := body.language.getD p.language,
    period_tracking_enabled :=
      match body.age with
      | none => p.period_tracking_enabled
      | some a => pyOrStr body.gender p.gender == "female" && 13 ≤ a,
    updated_at := clock }

/-- `update_one({"email": email}, {"$set": ...})`: rewrite the first document
matching the email. -/
def update_one (l : List ProfileDoc) (email : String) (f : ProfileDoc → ProfileDoc) :
    List ProfileDoc :=
  match l with
  | [] => []
  | p :: rest => if p.email == email then f p :: rest else p :: update_one rest email f

/-- `profile_setup` (src/main.py): 404 when the email is unknown; otherwise
apply the supplied fields (writing only when at least one field is
supplied), re-read the profile and echo it. -/
def profile_setup (st : Store) (email : String) (body : ProfileUpdate) :
    SetupResult × Store :=
  match find_one_profile st email with
  | none => (.notFound, st)
  | some _ =>
    let st' :=
      if hasUpdates body then
        { st with profiles := update_one st.profiles email (applyUpdates body st.clock),
                  clock := st.clock + 1 }
      else st
    match find_one_profile st' email with
    | none => (.notFound, st')
    | some updated => (.ok (responseOf updated), st')

/-! ### Cycle add -/

/-- Outcome of `POST /api/cycle/add`. -/
inductive AddCycleResult where
  | notFound
  | permissionDenied
  | validationError
  | ok
deriving DecidableEq, Repr

/-- The `CycleEntry` schema bound on `cycle_length_days`: absent, or in
[20, 60]. -/
def validCycleLen : Option Int → Bool
  | none => true
  | some v => 20 ≤ v && v ≤ 60

/-- `add_cycle` (src/main.py): 404 when the email is unknown, 403 when the
profile's `period_tracking_enabled` is not truthy, a validation error when
the `CycleEntry` schema rejects `cycle_length_days`; otherwise append the
entry (stamped with the insertion clock per the spec's store contract). -/
def add_cycle (st : Store) (email date_iso entry_type : String)
    (cycle_length_days : Option Int) : AddCycleResult × Store :=
  match find_one_profile st email with
  | none => (.notFound, st)
  | some u =>
    if !u.period_tracking_enabled then (.permissionDenied, st)
    else if !validCycleLen cycle_length_days then (.validationError, st)
    else
      let doc : CycleDoc :=
        { docId := .oid st.nextId,
          user_id := idStr u.docId,
          date_iso := date_iso,
          entry_type := entry_type,
          cycle_length_days := cycle_length_days,
          created_at := st.clock }
      (.ok, { st with cycles := st.cycles ++ [doc],
                      nextId := st.nextId + 1, clock := st.clock + 1 })

/-! ### Listing endpoints -/

/-- The `it["_id"] = str(it["_id"])` loop applied to one record. -/
def strId (d : DocId) : DocId := .str (idStr d)

/-- `GET /api/mood/list` (`list_moods`): 404 when the email is unknown;
otherwise the user's mood entries capped at `limit` (default 30 in the
route), identifiers rendered as strings. -/
def list_moods (st : Store) (email : String) (limit : Nat) :
    Option (List MoodDoc) :=
  match find_one_profile st email with
  | none => none
  | some u =>
    let items := get_documents st.moods (fun m => m.user_id == idStr u.docId) (some limit)
    some (items.map (fun it => { it with docId := strId it.docId }))

/-- `GET /api/habits/list` (`list_habits`): 404 when the email is unknown;
otherwise all the user's habits (no limit), identifiers rendered as
strings. -/
def list_habits (st : Store) (email : String) : Option (List HabitDoc) :=
  match find_one_profile st email with
  | none => none
  | some u =>
    let items := get_documents st.habits (fun h => h.user_id == idStr u.docId) none
    some (items.map (fun it => { it with docId := strId it.docId }))

/-- `GET /api/reminders/list` (`list_reminders`): 404 when the email is
unknown; otherwise all the user's reminders (no limit), identifiers
rendered as strings. -/
def list_reminders (st : Store) (email : String) : Option (List ReminderDoc) :=
  match find_one_profile st email with
  | none => none
  | some u =>
    let items := get_documents st.reminders (fun r => r.user_id == idStr u.docId) none
    some (items.map (fun it => { it with docId := strId it.docId }))

/-! ### Daily tip -/

/-- The fixed `tip_by_mood` dictionary of `daily_tip`. -/
def tip_by_mood (m : String) : Option String :=
  if m = "great" then
    some "Leverage your momentum: schedule a deep-focus block and a short gratitude note."
  else if m = "good" then
    some "Set one high-impact task and a 5-minute mindfulness break."
  else if m = "ok" then
    some "Keep it simple: one task, one walk, and steady hydration."
  else if m = "low" then
    some "Be kind to yourself: tiny steps count. Try 3 deep breaths and a 10-minute stroll."
  else if m = "bad" then
    some "Prioritize rest and support. Reach out to a friend and schedule light tasks only."
  else none

/-- `tip_by_mood.get(latest_mood, tip_by_mood["ok"])`. -/
def tipText (m : String) : String :=
  (tip_by_mood m).getD "Keep it simple: one task, one walk, and steady hydration."

/-- The formatted cycle sentence appended by `daily_tip`. -/
def cycleSentence (phase workout food : String) : String :=
  "Cycle phase: " ++ phase ++ ". Workout: " ++ workout ++ ". Food: " ++ food ++ "."

/-- Outcome of `GET /api/ai/daily-tip`; `.parseError` is the unhandled
exception propagating out of the nested `cycle_recs` call. -/
inductive TipResult where
  | notFound
  | parseError
  | ok (mood tip language : String)
deriving DecidableEq, Repr

/-- `daily_tip` (src/main.py): 404 when the email is unknown; otherwise reads
the user's mood entries with `limit=1` (the head of the store-ordered
sequence, or `"ok"` when there are none), resolves the tip text, and when
period tracking is enabled calls `cycle_recs` and appends the cycle
sentence whenever the returned dict has a truthy `enabled`. -/
def daily_tip (st : Store) (now : Int) (email language : String) : TipResult :=
  match find_one_profile st email with
  | none => .notFound
  | some u =>
    let moods := get_documents st.moods (fun m => m.user_id == idStr u.docId) (some 1)
    let latest_mood := match moods.head? with
      | none => "ok"
      | some m => m.mood
    if u.period_tracking_enabled then
      match cycle_recs st now email with
      | .enabled phase workout food =>
        .ok latest_mood (tipText latest_mood ++ " " ++ cycleSentence phase workout food) language
      | .parseError => .parseError
      | .notFound => .notFound
      | .disabled => .ok latest_mood (tipText latest_mood) language
    else .ok latest_mood (tipText latest_mood) language

/-! ### Concrete example stores for witnesses -/

/-- An empty store. -/
def emptyStore : Store :=
  { profiles := [], moods := [], habits := [], reminders := [], cycles := [],
    nextId := 0, clock := 0 }

/-- A tracking-enabled profile. -/
def exProfileF : ProfileDoc :=
  { docId := .oid 0, email := "f@x.io", name := "f", gender := "female", age := 25,
    language := "en", period_tracking_enabled := true, plan := "free", referrals := 0,
    created_at := 0, updated_at := 0 }

/-- A profile with period tracking disabled. -/
def exProfileM : ProfileDoc :=
  { docId := .oid 0, email := "m@x.io", name := "m", gender := "male", age := 30,
    language := "en", period_tracking_enabled := false, plan := "free", referrals := 0,
    created_at := 0, updated_at := 0 }

/-- A period-start entry with a bare ISO date and no cycle length. -/
def exCycleEntry : CycleDoc :=
  { docId := .oid 1, user_id := "0", date_iso := "2024-01-10", entry_type := "period_start",
    cycle_length_days := none, created_at := 1 }

/-- A later-recorded period-start entry with an earlier period date. -/
def exCycleEntry2 : CycleDoc :=
  { docId := .oid 2, user_id := "0", date_iso := "2023-12-25", entry_type := "period_start",
    cycle_length_days := some 30, created_at := 2 }

/-- A store with a tracking-enabled profile and two period-start entries. -/
def exStoreCycle : Store :=
  { profiles := [exProfileF], moods := [], habits := [], reminders := [],
    cycles := [exCycleEntry, exCycleEntry2], nextId := 3, clock := 3 }

/-- A period-start entry whose `date_iso` is not a parseable date. -/
def exCycleBad : CycleDoc :=
  { docId := .oid 1, user_id := "0", date_iso := "not-a-date", entry_type := "period_start",
    cycle_length_days := none, created_at := 1 }

/-- A store whose only period-start entry has a malformed date. -/
def exStoreBadDate : Store :=
  { profiles := [exProfileF], moods := [], habits := [], reminders := [],
    cycles := [exCycleBad], nextId := 2, clock := 2 }

/-- A store with a tracking-disabled profile and no cycle entries. -/
def exStoreDisabled : Store :=
  { profiles := [exProfileM], moods := [], habits := [], reminders := [], cycles := [],
    nextId := 1, clock := 1 }

/-- A store with one mood, one habit and one reminder for the profile. -/
def exStoreLists : Store :=
  { profiles := [exProfileM],
    moods := [{ docId := .oid 1, user_id := "0", mood := "good", note := none,
                created_at := 1 }],
    habits := [{ docId := .oid 2, user_id := "0", title := "run", frequency := "daily",
                 active := true, streak := 0 }],
    reminders := [{ docId := .oid 3, user_id := "0", title := "water",
                    remind_at_iso := "2024-01-01T09:00:00", enabled := true }],
    cycles := [], nextId := 4, clock := 4 }

/-- A store with two mood entries: the first-inserted is `"bad"`, the most
recent (latest `created_at`) is `"great"`. -/
def exStoreTip : Store :=
  { profiles := [exProfileM],
    moods := [{ docId := .oid 1, user_id := "0", mood := "bad", note := none,
                created_at := 1 },
              { docId := .oid 2, user_id := "0", mood := "great", note := none,
                created_at := 2 }],
    habits := [], reminders := [], cycles := [], nextId := 3, clock := 3 }

/-! ### Helper lemmas -/

/-- `leCreated` is transitive. -/
theorem leCreated_trans : ∀ a b c : CycleDoc, leCreated a b → leCreated b c → leCreated a c := by
  intro a b c
  simp only [leCreated, decide_eq_true_eq]
  omega

/-- `leCreated` is total. -/
theorem leCreated_total : ∀ a b : CycleDoc, leCreated a b || leCreated b a := by
  intro a b
  simp only [leCreated, Bool.or_eq_true, decide_eq_true_eq]
  omega

/-- The element selected by `selectLast` is a member of the list and has the
maximal `created_at`. -/
theorem selectLast_spec {entries : List CycleDoc} {m : CycleDoc}
    (h : selectLast entries = some m) :
    m ∈ entries ∧ ∀ x ∈ entries, x.created_at ≤ m.created_at := by
  unfold selectLast at h
  have hperm := List.mergeSort_perm entries leCreated
  have hsort := List.sorted_mergeSort leCreated_trans leCreated_total entries
  obtain ⟨ys, hys⟩ := List.getLast?_eq_some_iff.mp h
  rw [hys] at hperm hsort
  rw [List.pairwise_append] at hsort
  constructor
  · exact hperm.mem_iff.mp (List.mem_append.mpr (Or.inr (List.mem_singleton_self m)))
  · intro x hx
    rcases List.mem_append.mp (hperm.mem_iff.mpr hx) with hl | hr
    · have := hsort.2.2 x hl m (List.mem_singleton_self m)
      simpa [leCreated] using this
    · rw [List.mem_singleton.mp hr]

/-- `selectLast` succeeds on any non-empty list. -/
theorem selectLast_isSome {entries : List CycleDoc} (h : entries ≠ []) :
    ∃ m, selectLast entries = some m := by
  unfold selectLast
  have hlen : (entries.mergeSort leCreated).length = entries.length :=
    (List.mergeSort_perm entries leCreated).length_eq
  match hm : entries.mergeSort leCreated with
  | [] =>
    rw [hm] at hlen
    exact absurd (List.length_eq_zero.mp hlen.symm) h
  | a :: l =>
    exact ⟨(a :: l).getLast (by simp), by simp [List.getLast?_eq_getLast]⟩

/-! ### C1: the phase classifier -/

/-- C1: in `cycle_recs`, for a selected `period_start` entry whose `date_iso`
parses to a start timestamp, with cycle length `L = cycle_length_days or 28`
(defaulting to 28 when unset), the phase is a pure function of
`offset = (now − start).days mod L`: the offset is non-negative in `[0, L)`,
and `offset ≤ 5` yields `"menstrual"`, `offset ≤ 13` yields `"follicular"`,
`offset ≤ 16` yields `"ovulation"`, any other offset yields `"luteal"`,
each paired with its fixed workout and food text. -/
theorem cycle_recs_phase (last : CycleDoc) (now start offset : Int)
    (hparse : parseStart last.date_iso = some start)
    (hoff : offset = ((now - start).fdiv 86400).fmod (pyOrInt last.cycle_length_days 28)) :
    (last.cycle_length_days = none → pyOrInt last.cycle_length_days 28 = 28) ∧
    (0 < pyOrInt last.cycle_length_days 28 →
      0 ≤ offset ∧ offset < pyOrInt last.cycle_length_days 28) ∧
    (offset ≤ 5 → recsFrom last now = .enabled "menstrual"
      "Gentle yoga, restorative movement" "Iron-rich foods, warm soups, hydration") ∧
    (5 < offset → offset ≤ 13 → recsFrom last now = .enabled "follicular"
      "Build intensity: strength and cardio" "Lean protein, fresh veggies, complex carbs") ∧
    (13 < offset → offset ≤ 16 → recsFrom last now = .enabled "ovulation"
      "High-intensity or power sessions if comfortable" "Anti-inflammatory foods, hydration") ∧
    (16 < offset → recsFrom last now = .enabled "luteal"
      "Moderate intensity, prioritize recovery" "Magnesium-rich foods, balanced meals") := by
  have hrecs : recsFrom last now =
      (let t := phaseFor offset; RecsOutcome.enabled t.1 t.2.1 t.2.2) := by
    rw [hoff]
    unfold recsFrom
    rw [hparse]
  refine ⟨?_, ?_, ?_, ?_, ?_, ?_⟩
  · intro h
    simp [pyOrInt, h]
  · intro hL
    exact hoff ▸ ⟨Int.fmod_nonneg' _ hL, Int.fmod_lt_of_pos _ hL⟩
  · intro h
    rw [hrecs]
    simp only [phaseFor]
    rw [if_pos h]
  · intro h1 h2
    rw [hrecs]
    simp only [phaseFor]
    rw [if_neg (by omega), if_pos h2]
  · intro h1 h2
    rw [hrecs]
    simp only [phaseFor]
    rw [if_neg (by omega), if_neg (by omega), if_pos h2]
  · intro h1
    rw [hrecs]
    simp only [phaseFor]
    rw [if_neg (by omega), if_neg (by omega), if_neg (by omega)]

/-- Witness for C1: on 2024-01-17, seven days after a period start on
2024-01-10 with default cycle length 28, the follicular branch fires. -/
theorem cycle_recs_phase_witness :
    parseStart exCycleEntry.date_iso = some (toTimestamp 2024 1 10 0 0 0) ∧
    (7 : Int) = (((toTimestamp 2024 1 17 0 0 0) - toTimestamp 2024 1 10 0 0 0).fdiv 86400).fmod
      (pyOrInt exCycleEntry.cycle_length_days 28) ∧
    recsFrom exCycleEntry (toTimestamp 2024 1 17 0 0 0) = .enabled "follicular"
      "Build intensity: strength and cardio" "Lean protein, fresh veggies, complex carbs" := by
  refine ⟨by decide, by decide, ?_⟩
  exact (cycle_recs_phase exCycleEntry (toTimestamp 2024 1 17 0 0 0)
    (toTimestamp 2024 1 10 0 0 0) 7 (by decide) (by decide)).2.2.2.1 (by decide) (by decide)

/-! ### C4: selection in cycle_recs -/

/-- C4: in `cycle_recs` for an existing profile, a disabled profile yields the
`{enabled: false}` outcome; an enabled profile with no `period_start`
entries yields the static fallback with phase `"unknown"`; otherwise the
computation runs on the selected entry, which has the latest `created_at`
(store-insertion time) among the user's `period_start` entries. -/
theorem cycle_recs_selection (st : Store) (now : Int) (email : String) (u : ProfileDoc)
    (hu : find_one_profile st email = some u) :
    (u.period_tracking_enabled = false → cycle_recs st now email = .disabled) ∧
    (u.period_tracking_enabled = true →
      (get_documents st.cycles
          (fun e => e.user_id == idStr u.docId && e.entry_type == "period_start") none = [] →
        cycle_recs st now email =
          .enabled "unknown" "Light walks and stretching" "Balanced meals, hydration") ∧
      (get_documents st.cycles
          (fun e => e.user_id == idStr u.docId && e.entry_type == "period_start") none ≠ [] →
        ∃ last, selectLast (get_documents st.cycles
            (fun e => e.user_id == idStr u.docId && e.entry_type == "period_start") none) =
              some last ∧
          cycle_recs st now email = recsFrom last now ∧
          ∀ e ∈ get_documents st.cycles
              (fun e => e.user_id == idStr u.docId && e.entry_type == "period_start") none,
            e.created_at ≤ last.created_at)) := by
  refine ⟨?_, ?_⟩
  · intro hflag
    simp [cycle_recs, hu, hflag]
  · intro hflag
    refine ⟨?_, ?_⟩
    · intro hempty
      simp [cycle_recs, hu, hflag, hempty, selectLast]
    · intro hne
      obtain ⟨m, hm⟩ := selectLast_isSome hne
      refine ⟨m, hm, ?_, (selectLast_spec hm).2⟩
      simp [cycle_recs, hu, hflag, hm]

unseal List.merge List.mergeSort in
/-- Witness for C4: in the two-entry store the selected entry is the one with
the later `created_at` (which has the earlier period date). -/
theorem cycle_recs_selection_witness :
    find_one_profile exStoreCycle "f@x.io" = some exProfileF ∧
    exProfileF.period_tracking_enabled = true ∧
    (∃ last, selectLast (get_documents exStoreCycle.cycles
        (fun e => e.user_id == idStr exProfileF.docId && e.entry_type == "period_start")
        none) = some last ∧
      cycle_recs exStoreCycle 0 "f@x.io" = recsFrom last 0 ∧
      ∀ e ∈ get_documents exStoreCycle.cycles
          (fun e => e.user_id == idStr exProfileF.docId && e.entry_type == "period_start")
          none,
        e.created_at ≤ last.created_at) := by
  refine ⟨rfl, rfl, ?_⟩
  exact ((cycle_recs_selection exStoreCycle 0 "f@x.io" exProfileF rfl).2 rfl).2 (by decide)

/-! ### C7: date parsing in cycle_recs -/

/-- C7: the selected entry's `date_iso` is accepted when `fromisoformat`
parses it (a bare ISO date or a full ISO datetime), in which case the
computation never yields a parse error; when neither the string nor the
string with `"T00:00:00"` appended parses, `cycle_recs` fails with the
(otherwise unhandled) parse error and no fallback result is returned. -/
theorem cycle_recs_parse (st : Store) (now : Int) (email : String) (u : ProfileDoc)
    (last : CycleDoc)
    (hu : find_one_profile st email = some u)
    (he : u.period_tracking_enabled = true)
    (hl : selectLast (get_documents st.cycles
        (fun e => e.user_id == idStr u.docId && e.entry_type == "period_start") none) =
      some last) :
    (∀ t, fromisoformat last.date_iso = some t →
      cycle_recs st now email = recsFrom last now ∧ recsFrom last now ≠ .parseError) ∧
    (fromisoformat last.date_iso = none →
      fromisoformat (last.date_iso ++ "T00:00:00") = none →
      cycle_recs st now email = .parseError) := by
  have hcr : cycle_recs st now email = recsFrom last now := by
    simp [cycle_recs, hu, he, hl]
  refine ⟨?_, ?_⟩
  · intro t ht
    refine ⟨hcr, ?_⟩
    have hps : parseStart last.date_iso = some t := by
      simp [parseStart, ht]
    simp [recsFrom, hps]
  · intro h1 h2
    have hps : parseStart last.date_iso = none := by
      simp [parseStart, h1, h2]
    rw [hcr]
    simp [recsFrom, hps]

unseal List.merge List.mergeSort in
/-- Witness for C7: a well-formed bare date is accepted and classified, and a
malformed date makes `cycle_recs` fail with the parse error. -/
theorem cycle_recs_parse_witness :
    (cycle_recs exStoreCycle 0 "f@x.io" = recsFrom exCycleEntry2 0 ∧
      recsFrom exCycleEntry2 0 ≠ .parseError) ∧
    (fromisoformat exCycleBad.date_iso = none ∧
      fromisoformat (exCycleBad.date_iso ++ "T00:00:00") = none ∧
      cycle_recs exStoreBadDate 0 "f@x.io" = .parseError) := by
  refine ⟨?_, rfl, rfl, ?_⟩
  · exact (cycle_recs_parse exStoreCycle 0 "f@x.io" exProfileF exCycleEntry2 rfl rfl
      (by decide)).1 (toTimestamp 2023 12 25 0 0 0) (by decide)
  · exact (cycle_recs_parse exStoreBadDate 0 "f@x.io" exProfileF exCycleBad rfl rfl
      (by decide)).2 rfl rfl

/-! ### Profile service lemmas -/

/-- After `update_one`, the first document matching the email is the updated
one, provided the update preserves the email field. -/
theorem find?_update_one (l : List ProfileDoc) (email : String)
    (f : ProfileDoc → ProfileDoc) (p : ProfileDoc)
    (hf : l.find? (fun q => q.email == email) = some p)
    (hemail : (f p).email = p.email) :
    (update_one l email f).find? (fun q => q.email == email) = some (f p) := by
  induction l with
  | nil => simp at hf
  | cons a l ih =>
    cases ha : (a.email == email) with
    | true =>
      have hap : a = p := by
        simpa [List.find?_cons, ha] using hf
      subst hap
      have hfa : ((f a).email == email) = true := by
        rw [hemail]
        exact ha
      simp [update_one, ha, List.find?_cons, hfa]
    | false =>
      have hrec := ih (by simpa [List.find?_cons, ha] using hf)
      simp [update_one, ha, List.find?_cons, hrec]

/-- Unfolding `profile_setup` on an existing profile: with a non-empty update
it writes `applyUpdates` through `update_one` and echoes the re-read
document; with an empty update it leaves the store untouched and echoes the
stored document. -/
theorem profile_setup_eq (st : Store) (email : String) (body : ProfileUpdate)
    (stored : ProfileDoc) (hs : find_one_profile st email = some stored) :
    (hasUpdates body = true →
      profile_setup st email body =
        (.ok (responseOf (applyUpdates body st.clock stored)),
         { st with profiles := update_one st.profiles email (applyUpdates body st.clock),
                   clock := st.clock + 1 }) ∧
      find_one_profile (profile_setup st email body).2 email =
        some (applyUpdates body st.clock stored)) ∧
    (hasUpdates body = false →
      profile_setup st email body = (.ok (responseOf stored), st)) := by
  have hupd : find_one_profile
      { st with profiles := update_one st.profiles email (applyUpdates body st.clock),
                clock := st.clock + 1 } email
      = some (applyUpdates body st.clock stored) := by
    exact find?_update_one st.profiles email (applyUpdates body st.clock) stored hs rfl
  constructor
  · intro hup
    have h1 : profile_setup st email body =
        (.ok (responseOf (applyUpdates body st.clock stored)),
         { st with profiles := update_one st.profiles email (applyUpdates body st.clock),
                   clock := st.clock + 1 }) := by
      simp [profile_setup, hs, hup, hupd]
    exact ⟨h1, by rw [h1]; exact hupd⟩
  · intro hup
    simp [profile_setup, hs, hup]

/-! ### C2: the derived period-tracking flag -/

/-- C2: for an existing profile, an update that supplies `age` sets
`period_tracking_enabled` to true exactly when the effective gender (the
new gender if provided, else the stored one) is `"female"` and the supplied
age is at least 13; an update that does not supply `age` leaves the flag
unchanged, whatever else (for instance the gender) it updates. -/
theorem profile_setup_flag (st : Store) (email : String) (body : ProfileUpdate)
    (stored : ProfileDoc)
    (hs : find_one_profile st email = some stored)
    (hg : body.gender = none ∨ body.gender = some "female" ∨ body.gender = some "male") :
    (∀ a, body.age = some a →
      ∃ d, find_one_profile (profile_setup st email body).2 email = some d ∧
        (profile_setup st email body).1 = .ok (responseOf d) ∧
        d.period_tracking_enabled =
          ((body.gender.getD stored.gender) == "female" && 13 ≤ a)) ∧
    (body.age = none →
      ∃ d, find_one_profile (profile_setup st email body).2 email = some d ∧
        (profile_setup st email body).1 = .ok (responseOf d) ∧
        d.period_tracking_enabled = stored.period_tracking_enabled) := by
  have H := profile_setup_eq st email body stored hs
  constructor
  · intro a ha
    have hup : hasUpdates body = true := by
      simp [hasUpdates, ha]
    obtain ⟨h1, h2⟩ := H.1 hup
    refine ⟨applyUpdates body st.clock stored, h2, by rw [h1], ?_⟩
    simp only [applyUpdates, ha]
    rcases hg with h | h | h <;> simp [pyOrStr, h]
  · intro ha
    cases hup : hasUpdates body with
    | true =>
      obtain ⟨h1, h2⟩ := H.1 hup
      refine ⟨applyUpdates body st.clock stored, h2, by rw [h1], ?_⟩
      simp [applyUpdates, ha]
    | false =>
      have h1 := H.2 hup
      exact ⟨stored, by rw [h1]; exact hs, by rw [h1], rfl⟩

/-- Witness for C2: updating with `age=13, gender=female` enables the flag,
and updating gender alone leaves the flag of a disabled profile unchanged. -/
theorem profile_setup_flag_witness :
    find_one_profile exStoreDisabled "m@x.io" = some exProfileM ∧
    (∃ d, find_one_profile (profile_setup exStoreDisabled "m@x.io"
        { name := none, gender := some "female", age := some 13, language := none }).2
        "m@x.io" = some d ∧
      (profile_setup exStoreDisabled "m@x.io"
        { name := none, gender := some "female", age := some 13, language := none }).1 =
        .ok (responseOf d) ∧
      d.period_tracking_enabled =
        (((some "female").getD exProfileM.gender) == "female" && 13 ≤ (13 : Int))) ∧
    (∃ d, find_one_profile (profile_setup exStoreDisabled "m@x.io"
        { name := none, gender := some "female", age := none, language := none }).2
        "m@x.io" = some d ∧
      (profile_setup exStoreDisabled "m@x.io"
        { name := none, gender := some "female", age := none, language := none }).1 =
        .ok (responseOf d) ∧
      d.period_tracking_enabled = exProfileM.period_tracking_enabled) := by
  refine ⟨rfl, ?_, ?_⟩
  · exact (profile_setup_flag exStoreDisabled "m@x.io"
      { name := none, gender := some "female", age := some 13, language := none }
      exProfileM rfl (Or.inr (Or.inl rfl))).1 13 rfl
  · exact (profile_setup_flag exStoreDisabled "m@x.io"
      { name := none, gender := some "female", age := none, language := none }
      exProfileM rfl (Or.inr (Or.inl rfl))).2 rfl

/-! ### C10: frame conditions of profile update -/

/-- C10: for an existing profile, `profile_setup` never modifies `email`,
`plan` or `referrals`; each of `name`, `gender`, `age`, `language` is
unchanged when not supplied; `period_tracking_enabled` is unchanged when
`age` is not supplied; and an update supplying no fields performs no store
write at all (the store is unchanged) and echoes the stored profile. -/
theorem profile_setup_frame (st : Store) (email : String) (body : ProfileUpdate)
    (stored : ProfileDoc) (hs : find_one_profile st email = some stored) :
    ∃ d, find_one_profile (profile_setup st email body).2 email = some d ∧
      (profile_setup st email body).1 = .ok (responseOf d) ∧
      d.email = stored.email ∧ d.plan = stored.plan ∧ d.referrals = stored.referrals ∧
      (body.name = none → d.name = stored.name) ∧
      (body.gender = none → d.gender = stored.gender) ∧
      (body.age = none → d.age = stored.age ∧
        d.period_tracking_enabled = stored.period_tracking_enabled) ∧
      (body.language = none → d.language = stored.language) ∧
      (hasUpdates body = false → (profile_setup st email body).2 = st ∧ d = stored) := by
  have H := profile_setup_eq st email body stored hs
  cases hup : hasUpdates body with
  | true =>
    obtain ⟨h1, h2⟩ := H.1 hup
    refine ⟨applyUpdates body st.clock stored, h2, by rw [h1], rfl, rfl, rfl,
      ?_, ?_, ?_, ?_, by simp [hup]⟩
    · intro h
      simp [applyUpdates, h]
    · intro h
      simp [applyUpdates, h]
    · intro h
      simp [applyUpdates, h]
    · intro h
      simp [applyUpdates, h]
  | false =>
    have h1 := H.2 hup
    exact ⟨stored, by rw [h1]; exact hs, by rw [h1], rfl, rfl, rfl,
      fun _ => rfl, fun _ => rfl, fun _ => ⟨rfl, rfl⟩, fun _ => rfl,
      fun _ => ⟨by rw [h1], rfl⟩⟩

/-- Witness for C10: an empty update on an existing profile leaves the store
untouched and echoes the stored profile. -/
theorem profile_setup_frame_witness :
    find_one_profile exStoreDisabled "m@x.io" = some exProfileM ∧
    (∃ d, find_one_profile (profile_setup exStoreDisabled "m@x.io"
        { name := none, gender := none, age := none, language := none }).2 "m@x.io" =
        some d ∧
      (profile_setup exStoreDisabled "m@x.io"
        { name := none, gender := none, age := none, language := none }).1 =
        .ok (responseOf d) ∧
      d.email = exProfileM.email ∧ d.plan = exProfileM.plan ∧
      d.referrals = exProfileM.referrals ∧
      (profile_setup exStoreDisabled "m@x.io"
        { name := none, gender := none, age := none, language := none }).2 =
        exStoreDisabled ∧
      d = exProfileM) := by
  refine ⟨rfl, ?_⟩
  obtain ⟨d, h1, h2, h3, h4, h5, _, _, _, _, hempty⟩ :=
    profile_setup_frame exStoreDisabled "m@x.io"
      { name := none, gender := none, age := none, language := none } exProfileM rfl
  obtain ⟨h6, h7⟩ := hempty rfl
  exact ⟨d, h1, h2, h3, h4, h5, h6, h7⟩

/-! ### C3: cycle add error handling -/

/-- C3: for every cycle add request, a missing profile yields `NotFound` and
a profile with tracking disabled yields `PermissionDenied`, in both cases
with the store unchanged (no document written); otherwise, when the entry
passes the `CycleEntry` validation, the validated entry is appended to the
cycle collection. -/
theorem add_cycle_spec (st : Store) (email date_iso entry_type : String)
    (clen : Option Int) :
    (find_one_profile st email = none →
      add_cycle st email date_iso entry_type clen = (.notFound, st)) ∧
    (∀ u, find_one_profile st email = some u → u.period_tracking_enabled = false →
      add_cycle st email date_iso entry_type clen = (.permissionDenied, st)) ∧
    (∀ u, find_one_profile st email = some u → u.period_tracking_enabled = true →
      validCycleLen clen = true →
      add_cycle st email date_iso entry_type clen =
        (.ok, { st with
          cycles := st.cycles ++
            [{ docId := .oid st.nextId, user_id := idStr u.docId, date_iso := date_iso,
               entry_type := entry_type, cycle_length_days := clen,
               created_at := st.clock }]
          nextId := st.nextId + 1
          clock := st.clock + 1 })) := by
  refine ⟨?_, ?_, ?_⟩
  · intro h
    simp [add_cycle, h]
  · intro u hu hflag
    simp [add_cycle, hu, hflag]
  · intro u hu hflag hv
    simp [add_cycle, hu, hflag, hv]

/-- Witness for C3: an unknown email yields `NotFound` with the store
unchanged, a tracking-disabled profile yields `PermissionDenied` with the
store unchanged, and a tracking-enabled profile gets the entry appended. -/
theorem add_cycle_spec_witness :
    (find_one_profile exStoreDisabled "nobody@x.io" = none ∧
      add_cycle exStoreDisabled "nobody@x.io" "2024-01-10" "period_start" none =
        (.notFound, exStoreDisabled)) ∧
    (find_one_profile exStoreDisabled "m@x.io" = some exProfileM ∧
      exProfileM.period_tracking_enabled = false ∧
      add_cycle exStoreDisabled "m@x.io" "2024-01-10" "period_start" none =
        (.permissionDenied, exStoreDisabled)) ∧
    (find_one_profile exStoreCycle "f@x.io" = some exProfileF ∧
      exProfileF.period_tracking_enabled = true ∧
      validCycleLen (some 30) = true ∧
      add_cycle exStoreCycle "f@x.io" "2024-02-01" "period_start" (some 30) =
        (.ok, { exStoreCycle with
          cycles := exStoreCycle.cycles ++
            [{ docId := .oid exStoreCycle.nextId, user_id := idStr exProfileF.docId,
               date_iso := "2024-02-01", entry_type := "period_start",
               cycle_length_days := some 30, created_at := exStoreCycle.clock }]
          nextId := exStoreCycle.nextId + 1
          clock := exStoreCycle.clock + 1 })) := by
  refine ⟨⟨rfl, ?_⟩, ⟨rfl, rfl, ?_⟩, ⟨rfl, rfl, rfl, ?_⟩⟩
  · exact (add_cycle_spec exStoreDisabled "nobody@x.io" "2024-01-10" "period_start"
      none).1 rfl
  · exact (add_cycle_spec exStoreDisabled "m@x.io" "2024-01-10" "period_start"
      none).2.1 exProfileM rfl rfl
  · exact (add_cycle_spec exStoreCycle "f@x.io" "2024-02-01" "period_start"
      (some 30)).2.2 exProfileF rfl rfl rfl

/-! ### Auth lemmas -/

/-- On a fresh email, `email_login` inserts the default profile, re-reads it
and echoes it. -/
theorem email_login_insert (st : Store) (e : String)
    (h : find_one_profile st e = none) :
    email_login st e = (authResponseOf (defaultProfile e st.nextId st.clock),
      { st with profiles := st.profiles ++ [defaultProfile e st.nextId st.clock],
                nextId := st.nextId + 1, clock := st.clock + 1 }) ∧
    find_one_profile (email_login st e).2 e =
      some (defaultProfile e st.nextId st.clock) := by
  have hfind : find_one_profile
      { st with profiles := st.profiles ++ [defaultProfile e st.nextId st.clock],
                nextId := st.nextId + 1, clock := st.clock + 1 } e =
      some (defaultProfile e st.nextId st.clock) := by
    unfold find_one_profile at h ⊢
    simp [List.find?_append, h, List.find?_cons, defaultProfile]
  have h1 : email_login st e =
      (authResponseOf (defaultProfile e st.nextId st.clock),
       { st with profiles := st.profiles ++ [defaultProfile e st.nextId st.clock],
                 nextId := st.nextId + 1, clock := st.clock + 1 }) := by
    simp [email_login, h, hfind]
  exact ⟨h1, by rw [h1]; exact hfind⟩

/-! ### C6: idempotence of email login -/

/-- C6: `email_login` is idempotent per email in this sequential (race-free)
model: a second call with the same email returns exactly the same response
(same user_id and echoed fields) and the same store as the first; and when
no profile exists, the first call creates one with the defaults
gender=male, age=18, language=en, period_tracking_enabled=false,
plan=free, referrals=0. -/
theorem email_login_idempotent (st : Store) (e : String) :
    email_login (email_login st e).2 e = email_login st e ∧
    (find_one_profile st e = none →
      ∃ d, find_one_profile (email_login st e).2 e = some d ∧
        (email_login st e).1 = authResponseOf d ∧
        d.gender = "male" ∧ d.age = 18 ∧ d.language = "en" ∧
        d.period_tracking_enabled = false ∧ d.plan = "free" ∧ d.referrals = 0) := by
  cases h : find_one_profile st e with
  | some u =>
    have h1 : email_login st e = (authResponseOf u, st) := by
      simp [email_login, h]
    refine ⟨?_, ?_⟩
    · rw [h1]
      exact h1
    · intro hn
      exact Option.noConfusion hn
  | none =>
    obtain ⟨h1, h2⟩ := email_login_insert st e h
    have h2' := h2
    rw [h1] at h2'
    refine ⟨?_, fun _ => ⟨defaultProfile e st.nextId st.clock, h2, by rw [h1],
      rfl, rfl, rfl, rfl, rfl, rfl⟩⟩
    rw [h1]
    show email_login _ e = _
    rw [email_login]
    rw [h2']

/-- Witness for C6: logging in twice with a fresh email returns the same
response and store, and the created profile has the documented defaults. -/
theorem email_login_idempotent_witness :
    find_one_profile emptyStore "alice@example.com" = none ∧
    email_login (email_login emptyStore "alice@example.com").2 "alice@example.com" =
      email_login emptyStore "alice@example.com" ∧
    (∃ d, find_one_profile (email_login emptyStore "alice@example.com").2
        "alice@example.com" = some d ∧
      (email_login emptyStore "alice@example.com").1 = authResponseOf d ∧
      d.gender = "male" ∧ d.age = 18 ∧ d.language = "en" ∧
      d.period_tracking_enabled = false ∧ d.plan = "free" ∧ d.referrals = 0) :=
  ⟨rfl, (email_login_idempotent emptyStore "alice@example.com").1,
   (email_login_idempotent emptyStore "alice@example.com").2 rfl⟩

/-! ### C9: default profile name -/

/-- C9: when `email_login` creates a new profile, the profile's `name` is the
local part of the email address — the segment before the first `"@"`,
i.e. the head of `email.split("@")`. -/
theorem email_login_name_localpart (st : Store) (e : String)
    (h : find_one_profile st e = none) :
    ∃ d, find_one_profile (email_login st e).2 e = some d ∧
      d.name = (e.splitOn "@").headD "" := by
  obtain ⟨_, h2⟩ := email_login_insert st e h
  exact ⟨defaultProfile e st.nextId st.clock, h2, rfl⟩

unseal String.splitOnAux in
/-- Witness for C9: creating a profile for `alice@example.com` names it
`alice`. -/
theorem email_login_name_localpart_witness :
    find_one_profile emptyStore "alice@example.com" = none ∧
    ("alice@example.com".splitOn "@").headD "" = "alice" ∧
    (∃ d, find_one_profile (email_login emptyStore "alice@example.com").2
        "alice@example.com" = some d ∧
      d.name = ("alice@example.com".splitOn "@").headD "") :=
  ⟨rfl, rfl, email_login_name_localpart emptyStore "alice@example.com" rfl⟩

/-! ### C8: listing endpoints -/

/-- C8: for an existing profile, every record returned by `mood/list`,
`habits/list` or `reminders/list` has its identifier rendered as a string
(never the store's native identifier); the mood list is capped at the
given limit while the habit and reminder lists contain every matching
record. -/
theorem listing_id_strings (st : Store) (email : String) (limit : Nat)
    (u : ProfileDoc) (hu : find_one_profile st email = some u) :
    (∃ items, list_moods st email limit = some items ∧ items.length ≤ limit ∧
      ∀ r ∈ items, ∃ s, r.docId = DocId.str s) ∧
    (∃ items, list_habits st email = some items ∧
      items.length = (st.habits.filter (fun x => x.user_id == idStr u.docId)).length ∧
      ∀ r ∈ items, ∃ s, r.docId = DocId.str s) ∧
    (∃ items, list_reminders st email = some items ∧
      items.length = (st.reminders.filter (fun x => x.user_id == idStr u.docId)).length ∧
      ∀ r ∈ items, ∃ s, r.docId = DocId.str s) := by
  refine ⟨⟨(get_documents st.moods (fun m => m.user_id == idStr u.docId)
        (some limit)).map (fun it => { it with docId := strId it.docId }),
      by simp [list_moods, hu], ?_, ?_⟩,
    ⟨(get_documents st.habits (fun x => x.user_id == idStr u.docId) none).map
        (fun it => { it with docId := strId it.docId }),
      by simp [list_habits, hu], ?_, ?_⟩,
    ⟨(get_documents st.reminders (fun x => x.user_id == idStr u.docId) none).map
        (fun it => { it with docId := strId it.docId }),
      by simp [list_reminders, hu], ?_, ?_⟩⟩
  · simp only [get_documents, List.length_map, List.length_take]
    exact Nat.min_le_left _ _
  · intro r hr
    obtain ⟨x, _, rfl⟩ := List.mem_map.mp hr
    exact ⟨idStr x.docId, rfl⟩
  · simp [get_documents]
  · intro r hr
    obtain ⟨x, _, rfl⟩ := List.mem_map.mp hr
    exact ⟨idStr x.docId, rfl⟩
  · simp [get_documents]
  · intro r hr
    obtain ⟨x, _, rfl⟩ := List.mem_map.mp hr
    exact ⟨idStr x.docId, rfl⟩

/-- Witness for C8: in a store with one mood, one habit and one reminder, all
three listings succeed, every returned identifier is a string, the mood
list respects the default limit 30 and the habit and reminder lists are
complete. -/
theorem listing_id_strings_witness :
    find_one_profile exStoreLists "m@x.io" = some exProfileM ∧
    (∃ items, list_moods exStoreLists "m@x.io" 30 = some items ∧
      items.length ≤ 30 ∧ ∀ r ∈ items, ∃ s, r.docId = DocId.str s) ∧
    (∃ items, list_habits exStoreLists "m@x.io" = some items ∧
      items.length = (exStoreLists.habits.filter
        (fun x => x.user_id == idStr exProfileM.docId)).length ∧
      ∀ r ∈ items, ∃ s, r.docId = DocId.str s) := by
  have H := listing_id_strings exStoreLists "m@x.io" 30 exProfileM rfl
  exact ⟨rfl, H.1, H.2.1⟩

/-! ### C5 (code bug): daily tip mood selection -/

/-- C5 is violated by the code: `daily_tip` reads the user's mood entries
with `limit=1` from the store's insertion-ordered sequence and takes the
head, which is the FIRST-inserted (oldest) mood entry, not the most recent
one — contradicting the handler's own docstring ("using latest mood").
In `exStoreTip` the first-inserted mood is `"bad"` while the most recent
(largest `created_at`) is `"great"`; the handler returns the `"bad"` tip. -/
theorem daily_tip_first_mood :
    (∃ m1 m2, exStoreTip.moods = [m1, m2] ∧ m1.created_at < m2.created_at ∧
      m1.mood = "bad" ∧ m2.mood = "great") ∧
    daily_tip exStoreTip 0 "m@x.io" "en" =
      .ok "bad"
        "Prioritize rest and support. Reach out to a friend and schedule light tasks only."
        "en" :=
  ⟨⟨_, _, rfl, by decide, rfl, rfl⟩, rfl⟩

end MindFlow
